import Mathlib

/-!
# Compensation Calculation Engine — formal model

A shallow embedding of the Multi-Factor Compensation Tool's calculation
engine and of the frontend form logic (`CompForm.tsx`), with theorems
settling the specification's claims about them.

The engine's own code (the Python `services/` layer) is not among the
repository files available here — only its README, workspace rules,
frontend and tests are — so the engine definitions below are modelled
from the specification's words, as their doc comments state.  The
frontend definitions (`buildQualitativeScores`, `schemaParse`) are
translated directly from `src/frontend/src/components/CompForm.tsx`.

All decimal arithmetic is modelled over `ℚ` (the spec demands decimal,
not binary floating point, arithmetic).
-/

namespace Comp4

/-- Modelled from the spec: the engine's error taxonomy (§7): a
field-qualified `ValidationError`, `InsufficientHistoryError` for a
missing required revenue year, `UndefinedRevenueDeltaError` for a zero
prior-window average. -/
inductive EngineError where
  | validationError (field : String)
  | insufficientHistoryError
  | undefinedRevenueDeltaError
deriving DecidableEq, Repr

/-- Modelled from the spec: a per-fund, per-year revenue row
(`{fundIdentifier, year, managementFees, performanceFees}`). -/
structure RevenueRow where
  fundIdentifier : String
  year : Int
  managementFees : ℚ
  performanceFees : ℚ
deriving DecidableEq, Repr

/-- Modelled from the spec: derived `totalRevenue = managementFees +
performanceFees`. -/
def RevenueRow.totalRevenue (r : RevenueRow) : ℚ :=
  r.managementFees + r.performanceFees

/-- Modelled from the spec: the qualitative scorecard's five sub-scores
`{risk, compliance, teamwork, esg, client}`, each a decimal. -/
structure QualitativeScorecard where
  risk : ℚ
  compliance : ℚ
  teamwork : ℚ
  esg : ℚ
  client : ℚ
deriving DecidableEq, Repr

/-- Modelled from the spec: `PerformanceInput = {investmentScore,
scorecard}`. -/
structure PerformanceInput where
  investmentScore : ℚ
  scorecard : QualitativeScorecard
deriving DecidableEq, Repr

/-- Modelled from the spec: `CompensationInput` — employee, period,
positive base salary, target bonus percentage, performance input, and
the revenue history as a list of rows. -/
structure CompensationInput where
  employeeId : String
  period : String
  baseSalary : ℚ
  targetBonusPct : ℚ
  performance : PerformanceInput
  revenueHistory : List RevenueRow
deriving DecidableEq, Repr

/-- Modelled from the spec: `CompensationResult = {weightedPerformance,
raf, initialBonus, finalBonus, breaches}`. -/
structure CompensationResult where
  weightedPerformance : ℚ
  raf : ℚ
  initialBonus : ℚ
  finalBonus : ℚ
  breaches : List String
deriving DecidableEq, Repr

/-- Modelled from the spec: the fixed sensitivity factor 0.20. -/
def sensitivityFactor : ℚ := 1/5

/-- Modelled from the spec: the RAF clamp's lower bound 0.90. -/
def rafLowerBound : ℚ := 9/10

/-- Modelled from the spec: the RAF clamp's upper bound 1.10. -/
def rafUpperBound : ℚ := 11/10

/-- Modelled from the spec: the 0.6 weight on the investment score. -/
def investmentWeight : ℚ := 3/5

/-- Modelled from the spec: the 0.4 weight on the qualitative average. -/
def qualitativeWeight : ℚ := 2/5

/-- Modelled from the spec: the breach policy ceiling — `finalBonus >
3 × baseSalary` raises `EXCEEDS_MAX_BONUS`. -/
def maxBonusMultiple : ℚ := 3

/-- Modelled from the spec: `clamp(x, lo, hi)` with inclusive bounds. -/
def clamp (x lo hi : ℚ) : ℚ := max lo (min x hi)

/-- Modelled from the spec (§4.2 RAF Calculator):
`computeRAF(recentAvg, priorAvg, sensitivity)`; `Δ = (recentAvg −
priorAvg) / priorAvg`, `raw RAF = 1 + Δ × sensitivity`, result
`clamp(raw RAF, 0.90, 1.10)`; `priorAvg == 0` raises
`UndefinedRevenueDeltaError` instead of guessing a value. -/
def computeRAF (recentAvg priorAvg sensitivity : ℚ) : Except EngineError ℚ :=
  if priorAvg = 0 then
    .error .undefinedRevenueDeltaError
  else
    .ok (clamp (1 + (recentAvg - priorAvg) / priorAvg * sensitivity)
      rafLowerBound rafUpperBound)

/-- Modelled from the spec (§4.3 Performance Scorer): `weighted = 0.6 ×
investmentScore + 0.4 × mean(risk, compliance, teamwork, esg, client)`. -/
def weightedPerformance (investmentScore : ℚ) (sc : QualitativeScorecard) : ℚ :=
  investmentWeight * investmentScore +
    qualitativeWeight *
      ((sc.risk + sc.compliance + sc.teamwork + sc.esg + sc.client) / 5)

/-- Modelled from the spec (§4.1 RevenueSeries Aggregator): the total
revenue of one year, summed across funds; `none` when the year has no
revenue entry at all (a missing year is never fabricated as zero). -/
def yearTotal (rows : List RevenueRow) (y : Int) : Option ℚ :=
  match rows.filter (fun r => r.year = y) with
  | [] => none
  | inYear => some ((inYear.map RevenueRow.totalRevenue).sum)

/-- Modelled from the spec: the recent rolling window, years {0, −1, −2}. -/
def recentWindow : List Int := [0, -1, -2]

/-- Modelled from the spec: the prior rolling window, years {−1, −2, −3}. -/
def priorWindow : List Int := [-1, -2, -3]

/-- Modelled from the spec: the per-year totals of a window of years;
`none` as soon as any required year is absent. -/
def windowTotals (rows : List RevenueRow) : List Int → Option (List ℚ)
  | [] => some []
  | y :: ys =>
    match yearTotal rows y, windowTotals rows ys with
    | some t, some ts => some (t :: ts)
    | _, _ => none

/-- Modelled from the spec (§4.1): the rolling average of a window is
the arithmetic mean of the window's per-year totals; it fails with
`InsufficientHistoryError` when any required year is absent. -/
def rollingAverage (rows : List RevenueRow) (window : List Int) :
    Except EngineError ℚ :=
  match windowTotals rows window with
  | some ts => .ok (ts.sum / ts.length)
  | none => .error .insufficientHistoryError

/-- Modelled from the spec (§4.5 Input Validator): the first violated
constraint's field name, or `none` when the input satisfies every
domain constraint (`baseSalary > 0`; `targetBonusPct > 0`;
`investmentScore ∈ [0,1]`; every scorecard sub-score `∈ [0,1]`; every
revenue figure `≥ 0`). -/
def firstViolation (i : CompensationInput) : Option String :=
  if ¬ 0 < i.baseSalary then some "baseSalary"
  else if ¬ 0 < i.targetBonusPct then some "targetBonusPct"
  else if ¬ (0 ≤ i.performance.investmentScore ∧
      i.performance.investmentScore ≤ 1) then some "investmentScore"
  else if ¬ (0 ≤ i.performance.scorecard.risk ∧
      i.performance.scorecard.risk ≤ 1) then some "scorecard.risk"
  else if ¬ (0 ≤ i.performance.scorecard.compliance ∧
      i.performance.scorecard.compliance ≤ 1) then some "scorecard.compliance"
  else if ¬ (0 ≤ i.performance.scorecard.teamwork ∧
      i.performance.scorecard.teamwork ≤ 1) then some "scorecard.teamwork"
  else if ¬ (0 ≤ i.performance.scorecard.esg ∧
      i.performance.scorecard.esg ≤ 1) then some "scorecard.esg"
  else if ¬ (0 ≤ i.performance.scorecard.client ∧
      i.performance.scorecard.client ≤ 1) then some "scorecard.client"
  else if ¬ (∀ r ∈ i.revenueHistory,
      0 ≤ r.managementFees ∧ 0 ≤ r.performanceFees) then some "revenueHistory"
  else none

/-- Modelled from the spec (§4.5): `validate(input) -> input |
ValidationError` — fails fast with a field-qualified error, never
coerces the offending value. -/
def validate (i : CompensationInput) :
    Except EngineError CompensationInput :=
  match firstViolation i with
  | some field => .error (.validationError field)
  | none => .ok i

/-- Modelled from the spec (§4.4 Bonus Engine): `calculate(input)` —
Validator, then Aggregator over both windows, then RAF, then Scorer,
then `initialBonus = baseSalary × targetBonusPct × weightedPerformance`,
`finalBonus = initialBonus × raf`, and the advisory breach rule
`finalBonus > 3 × baseSalary → "EXCEEDS_MAX_BONUS"`. -/
def calculate (input : CompensationInput) :
    Except EngineError CompensationResult :=
  match validate input with
  | .error e => .error e
  | .ok v =>
    match rollingAverage v.revenueHistory recentWindow with
    | .error e => .error e
    | .ok recentAvg =>
      match rollingAverage v.revenueHistory priorWindow with
      | .error e => .error e
      | .ok priorAvg =>
        match computeRAF recentAvg priorAvg sensitivityFactor with
        | .error e => .error e
        | .ok raf =>
          let weighted :=
            weightedPerformance v.performance.investmentScore
              v.performance.scorecard
          let initialBonus := v.baseSalary * v.targetBonusPct * weighted
          let finalBonus := initialBonus * raf
          let breaches :=
            if maxBonusMultiple * v.baseSalary < finalBonus then
              ["EXCEEDS_MAX_BONUS"]
            else []
          .ok ⟨weighted, raf, initialBonus, finalBonus, breaches⟩

/-! ## Frontend form logic, from `src/frontend/src/components/CompForm.tsx` -/

/-- A JavaScript number as the form manipulates it: either `NaN` (the
result of converting an unparseable entry) or an actual numeric value,
modelled as a rational. -/
inductive JSNum where
  | nan
  | num (q : ℚ)
deriving DecidableEq, Repr

/-- `isNaN(x)` on a `JSNum`. -/
def JSNum.isNaN : JSNum → Bool
  | .nan => true
  | .num _ => false

/-- One row of the form's `scores` state: `{ metric: string; score: number }`. -/
structure ScoreEntry where
  metric : String
  score : JSNum
deriving DecidableEq, Repr

/-- From `handleSubmit` in `CompForm.tsx`: the conversion applied to one
score — `const numericScore = Number(score); if (isNaN(numericScore))
return [metric, 0]; return [metric, numericScore]` (`Number` on a value
that is already a number is the identity). -/
def toPayloadScore (s : JSNum) : JSNum :=
  if s.isNaN then .num 0 else s

/-- From `handleSubmit` in `CompForm.tsx`: the `qualitative_scores`
object of the request payload, built by mapping `toPayloadScore` over
the form's score entries. -/
def buildQualitativeScores (scores : List ScoreEntry) :
    List (String × JSNum) :=
  scores.map (fun e => (e.metric, toPayloadScore e.score))

/-- The request payload `CompRequest` as `handleSubmit` builds it:
`employee_id` from `parseInt`, `revenue_actual` from `parseFloat` (each
possibly `NaN`), and the open-ended `qualitative_scores` mapping. -/
structure CompRequest where
  employee_id : JSNum
  revenue_actual : JSNum
  qualitative_scores : List (String × JSNum)
deriving DecidableEq, Repr

/-- From the Zod `schema` in `CompForm.tsx`:
`z.number().int().positive()` — the value is a non-NaN number, an
integer, and strictly positive. -/
def numberIntPositive : JSNum → Bool
  | .nan => false
  | .num q => decide (q.den = 1) && decide (0 < q)

/-- From the Zod `schema` in `CompForm.tsx`: `z.number().positive()`. -/
def numberPositive : JSNum → Bool
  | .nan => false
  | .num q => decide (0 < q)

/-- From the Zod `schema` in `CompForm.tsx`:
`z.number().min(0).max(100)` — the per-score check of the
`qualitative_scores` record; the metric-name keys are unconstrained. -/
def scoreInRange : JSNum → Bool
  | .nan => false
  | .num q => decide (0 ≤ q) && decide (q ≤ 100)

/-- From the Zod `schema` in `CompForm.tsx`: `schema.parse(data)`
succeeds exactly when `employee_id` is a positive integer,
`revenue_actual` is a positive number, and every value of the
`qualitative_scores` record lies in `[0, 100]` (the record accepts any
set of string keys; `z.preprocess` only replaces a non-object value
with `{}`, and the payload is always an object here). -/
def schemaParse (req : CompRequest) : Bool :=
  numberIntPositive req.employee_id &&
    numberPositive req.revenue_actual &&
    req.qualitative_scores.all (fun p => scoreInRange p.2)

/-! ## Helper lemmas -/

/-- The clamp never goes below its lower bound. -/
lemma clamp_lower (x lo hi : ℚ) : lo ≤ clamp x lo hi :=
  le_max_left _ _

/-- The clamp never goes above its upper bound (when the bounds are
ordered). -/
lemma clamp_upper (x lo hi : ℚ) (h : lo ≤ hi) : clamp x lo hi ≤ hi :=
  max_le h (min_le_right _ _)

/-- A value already inside the inclusive bounds is returned unchanged. -/
lemma clamp_of_mem (x lo hi : ℚ) (hlo : lo ≤ x) (hhi : x ≤ hi) :
    clamp x lo hi = x := by
  unfold clamp
  rw [min_eq_left hhi, max_eq_right hlo]

/-- A successful `computeRAF` value is the clamp of the raw RAF. -/
lemma computeRAF_ok {recentAvg priorAvg sensitivity v : ℚ}
    (h : computeRAF recentAvg priorAvg sensitivity = .ok v) :
    priorAvg ≠ 0 ∧
      v = clamp (1 + (recentAvg - priorAvg) / priorAvg * sensitivity)
        rafLowerBound rafUpperBound := by
  unfold computeRAF at h
  by_cases hz : priorAvg = 0
  · simp [hz] at h
  · simp [hz] at h
    exact ⟨hz, h.symm⟩

/-- A successful `computeRAF` value lies within the clamp bounds. -/
lemma computeRAF_bounds {recentAvg priorAvg sensitivity v : ℚ}
    (h : computeRAF recentAvg priorAvg sensitivity = .ok v) :
    rafLowerBound ≤ v ∧ v ≤ rafUpperBound := by
  obtain ⟨-, hv⟩ := computeRAF_ok h
  subst hv
  exact ⟨clamp_lower _ _ _, clamp_upper _ _ _ (by norm_num [rafLowerBound, rafUpperBound])⟩

/-- `validate` never rewrites the input it accepts. -/
lemma validate_ok_eq {i v : CompensationInput} (h : validate i = .ok v) :
    v = i := by
  unfold validate at h
  cases hf : firstViolation i <;> rw [hf] at h <;> simp at h
  exact h.symm

/-- Inversion of a successful `calculate`: the validator accepted the
input unchanged, both windows' rolling averages and the RAF succeeded,
and every result field is the corresponding formula value. -/
lemma calculate_ok_elim {input : CompensationInput}
    {r : CompensationResult} (h : calculate input = .ok r) :
    ∃ recentAvg priorAvg raf,
      validate input = .ok input ∧
      rollingAverage input.revenueHistory recentWindow = .ok recentAvg ∧
      rollingAverage input.revenueHistory priorWindow = .ok priorAvg ∧
      computeRAF recentAvg priorAvg sensitivityFactor = .ok raf ∧
      r = { weightedPerformance :=
              weightedPerformance input.performance.investmentScore
                input.performance.scorecard,
            raf := raf,
            initialBonus := input.baseSalary * input.targetBonusPct *
              weightedPerformance input.performance.investmentScore
                input.performance.scorecard,
            finalBonus := input.baseSalary * input.targetBonusPct *
              weightedPerformance input.performance.investmentScore
                input.performance.scorecard * raf,
            breaches :=
              if maxBonusMultiple * input.baseSalary <
                  input.baseSalary * input.targetBonusPct *
                    weightedPerformance input.performance.investmentScore
                      input.performance.scorecard * raf then
                ["EXCEEDS_MAX_BONUS"]
              else [] } := by
  unfold calculate at h
  split at h
  next e he => simp at h
  next v hv =>
    obtain rfl : input = v := (validate_ok_eq hv).symm
    split at h
    next e he => simp at h
    next recentAvg hrec =>
      split at h
      next e he => simp at h
      next priorAvg hpri =>
        split at h
        next e he => simp at h
        next raf hraf =>
          simp only [Except.ok.injEq] at h
          exact ⟨recentAvg, priorAvg, raf, hv, hrec, hpri, hraf, h.symm⟩

/-- `windowTotals` is `none` exactly when some year of the window has
no revenue entry. -/
lemma windowTotals_none_iff (rows : List RevenueRow) (w : List Int) :
    windowTotals rows w = none ↔ ∃ y ∈ w, yearTotal rows y = none := by
  induction w with
  | nil => simp [windowTotals]
  | cons y ys ih =>
    have hmem : (∃ z ∈ y :: ys, yearTotal rows z = none) ↔
        (yearTotal rows y = none ∨ ∃ z ∈ ys, yearTotal rows z = none) := by
      constructor
      · rintro ⟨z, hz, hzn⟩
        rcases List.mem_cons.mp hz with rfl | hz
        · exact Or.inl hzn
        · exact Or.inr ⟨z, hz, hzn⟩
      · rintro (hzn | ⟨z, hz, hzn⟩)
        · exact ⟨y, List.mem_cons_self y ys, hzn⟩
        · exact ⟨z, List.mem_cons_of_mem y hz, hzn⟩
    rw [hmem, ← ih]
    cases hy : yearTotal rows y <;> cases hys : windowTotals rows ys <;>
      simp [windowTotals, hy, hys]


/-- `rollingAverage` fails (and then only with
`InsufficientHistoryError`) exactly when some year of the window has no
revenue entry. -/
lemma rollingAverage_error_iff (rows : List RevenueRow) (w : List Int) :
    rollingAverage rows w = .error .insufficientHistoryError ↔
      ∃ y ∈ w, yearTotal rows y = none := by
  rw [← windowTotals_none_iff]
  unfold rollingAverage
  cases hw : windowTotals rows w <;> simp [hw]

/-- The validator's checks, as one proposition. -/
def validInput (i : CompensationInput) : Prop :=
  0 < i.baseSalary ∧ 0 < i.targetBonusPct ∧
    (0 ≤ i.performance.investmentScore ∧ i.performance.investmentScore ≤ 1) ∧
    (0 ≤ i.performance.scorecard.risk ∧ i.performance.scorecard.risk ≤ 1) ∧
    (0 ≤ i.performance.scorecard.compliance ∧
      i.performance.scorecard.compliance ≤ 1) ∧
    (0 ≤ i.performance.scorecard.teamwork ∧
      i.performance.scorecard.teamwork ≤ 1) ∧
    (0 ≤ i.performance.scorecard.esg ∧ i.performance.scorecard.esg ≤ 1) ∧
    (0 ≤ i.performance.scorecard.client ∧
      i.performance.scorecard.client ≤ 1) ∧
    ∀ r ∈ i.revenueHistory, 0 ≤ r.managementFees ∧ 0 ≤ r.performanceFees

/-- `firstViolation` reports nothing exactly on inputs satisfying every
domain constraint. -/
lemma firstViolation_none_iff (i : CompensationInput) :
    firstViolation i = none ↔ validInput i := by
  unfold firstViolation validInput
  split_ifs with h1 h2 h3 h4 h5 h6 h7 h8 h9
  · exact iff_of_true rfl ⟨h1, h2, h3, h4, h5, h6, h7, h8, h9⟩
  · exact iff_of_false (by simp) (fun hv => h9 hv.2.2.2.2.2.2.2.2)
  · exact iff_of_false (by simp) (fun hv => h8 hv.2.2.2.2.2.2.2.1)
  · exact iff_of_false (by simp) (fun hv => h7 hv.2.2.2.2.2.2.1)
  · exact iff_of_false (by simp) (fun hv => h6 hv.2.2.2.2.2.1)
  · exact iff_of_false (by simp) (fun hv => h5 hv.2.2.2.2.1)
  · exact iff_of_false (by simp) (fun hv => h4 hv.2.2.2.1)
  · exact iff_of_false (by simp) (fun hv => h3 hv.2.2.1)
  · exact iff_of_false (by simp) (fun hv => h2 hv.2.1)
  · exact iff_of_false (by simp) (fun hv => h1 hv.1)

/-- `validate` accepts exactly the inputs satisfying every domain
constraint, and returns them unchanged. -/
lemma validate_ok_iff (i : CompensationInput) :
    validate i = .ok i ↔ validInput i := by
  rw [← firstViolation_none_iff]
  unfold validate
  cases hf : firstViolation i <;> simp [hf]

/-! ## Concrete scenarios -/

/-- Revenue history realizing Scenario A of the spec: recent-window
totals 130, 110, 90 (average 110) and prior-window totals 110, 90, 100
(average 100). -/
def scenarioARows : List RevenueRow :=
  [⟨"FUND-1", 0, 130, 0⟩, ⟨"FUND-1", -1, 110, 0⟩,
   ⟨"FUND-1", -2, 90, 0⟩, ⟨"FUND-1", -3, 100, 0⟩]

/-- Scenario A of the spec: baseSalary 100000, targetBonusPct 0.20,
investmentScore 1.0, scorecard all 1.0, recentAvg 110, priorAvg 100. -/
def scenarioAInput : CompensationInput :=
  { employeeId := "E-1", period := "2025",
    baseSalary := 100000, targetBonusPct := 1/5,
    performance := { investmentScore := 1,
                     scorecard := ⟨1, 1, 1, 1, 1⟩ },
    revenueHistory := scenarioARows }

/-- The result Scenario A must produce: weighted 1.0, raf 1.02,
initialBonus 20000, finalBonus 20400, no breaches. -/
def scenarioAResult : CompensationResult :=
  { weightedPerformance := 1, raf := 51/50,
    initialBonus := 20000, finalBonus := 20400, breaches := [] }

/-- Scenario A evaluates as the spec requires. -/
lemma calculate_scenarioA : calculate scenarioAInput = .ok scenarioAResult := by
  norm_num [calculate, validate, firstViolation, rollingAverage,
    windowTotals, yearTotal, recentWindow, priorWindow, computeRAF, clamp,
    weightedPerformance, sensitivityFactor, rafLowerBound, rafUpperBound,
    investmentWeight, qualitativeWeight, maxBonusMultiple,
    RevenueRow.totalRevenue, scenarioAInput, scenarioARows, scenarioAResult,
    List.filter]

/-- Revenue history whose two windows both average 100: every required
year totals 100. -/
def flatRows : List RevenueRow :=
  [⟨"FUND-1", 0, 100, 0⟩, ⟨"FUND-1", -1, 100, 0⟩,
   ⟨"FUND-1", -2, 100, 0⟩, ⟨"FUND-1", -3, 100, 0⟩]

/-- Boundary input: weighted performance 1, raf 1, finalBonus exactly
3 × baseSalary (100000 × 3 × 1 × 1 = 300000). -/
def boundaryInput : CompensationInput :=
  { employeeId := "E-2", period := "2025",
    baseSalary := 100000, targetBonusPct := 3,
    performance := { investmentScore := 1,
                     scorecard := ⟨1, 1, 1, 1, 1⟩ },
    revenueHistory := flatRows }

/-- The boundary result: finalBonus equal to the ceiling, no breach. -/
def boundaryResult : CompensationResult :=
  { weightedPerformance := 1, raf := 1,
    initialBonus := 300000, finalBonus := 300000, breaches := [] }

/-- The boundary input evaluates with no breach. -/
lemma calculate_boundary : calculate boundaryInput = .ok boundaryResult := by
  norm_num [calculate, validate, firstViolation, rollingAverage,
    windowTotals, yearTotal, recentWindow, priorWindow, computeRAF, clamp,
    weightedPerformance, sensitivityFactor, rafLowerBound, rafUpperBound,
    investmentWeight, qualitativeWeight, maxBonusMultiple,
    RevenueRow.totalRevenue, boundaryInput, flatRows, boundaryResult,
    List.filter]

/-- Revenue history with recent average 150 and prior average 100, so
the raw RAF 1.10 sits exactly at the clamp ceiling. -/
def surgeRows : List RevenueRow :=
  [⟨"FUND-1", 0, 250, 0⟩, ⟨"FUND-1", -1, 150, 0⟩,
   ⟨"FUND-1", -2, 50, 0⟩, ⟨"FUND-1", -3, 100, 0⟩]

/-- Scenario D of the spec, with the revenue-driven raf 1.10: baseSalary
50000, targetBonusPct 3.5, weighted 1 — finalBonus 192500 > 150000. -/
def breachInput : CompensationInput :=
  { employeeId := "E-3", period := "2025",
    baseSalary := 50000, targetBonusPct := 7/2,
    performance := { investmentScore := 1,
                     scorecard := ⟨1, 1, 1, 1, 1⟩ },
    revenueHistory := surgeRows }

/-- The breach result: the numeric fields plus the advisory breach. -/
def breachResult : CompensationResult :=
  { weightedPerformance := 1, raf := 11/10,
    initialBonus := 175000, finalBonus := 192500,
    breaches := ["EXCEEDS_MAX_BONUS"] }

/-- The breach input evaluates with the advisory breach recorded. -/
lemma calculate_breach : calculate breachInput = .ok breachResult := by
  norm_num [calculate, validate, firstViolation, rollingAverage,
    windowTotals, yearTotal, recentWindow, priorWindow, computeRAF, clamp,
    weightedPerformance, sensitivityFactor, rafLowerBound, rafUpperBound,
    investmentWeight, qualitativeWeight, maxBonusMultiple,
    RevenueRow.totalRevenue, breachInput, surgeRows, breachResult,
    List.filter]

/-- Revenue history whose prior window totals are all zero while year 0
has revenue: the prior average is exactly zero. -/
def zeroPriorRows : List RevenueRow :=
  [⟨"FUND-1", 0, 30, 0⟩, ⟨"FUND-1", -1, 0, 0⟩,
   ⟨"FUND-1", -2, 0, 0⟩, ⟨"FUND-1", -3, 0, 0⟩]

/-- Scenario C of the spec: a valid input whose prior-window average
revenue is exactly zero. -/
def zeroPriorInput : CompensationInput :=
  { employeeId := "E-4", period := "2025",
    baseSalary := 1000, targetBonusPct := 1/10,
    performance := { investmentScore := 1/2,
                     scorecard := ⟨1/2, 1/2, 1/2, 1/2, 1/2⟩ },
    revenueHistory := zeroPriorRows }

/-- Scenario C evaluates to `UndefinedRevenueDeltaError`. -/
lemma calculate_zeroPrior :
    calculate zeroPriorInput = .error .undefinedRevenueDeltaError := by
  norm_num [calculate, validate, firstViolation, rollingAverage,
    windowTotals, yearTotal, recentWindow, priorWindow, computeRAF,
    sensitivityFactor, zeroPriorInput, zeroPriorRows,
    RevenueRow.totalRevenue, List.filter]

/-- An input whose risk sub-score is 1.4 (out of range), all other
constraints satisfied. -/
def badScoreInput : CompensationInput :=
  { employeeId := "E-5", period := "2025",
    baseSalary := 100000, targetBonusPct := 1/5,
    performance := { investmentScore := 1,
                     scorecard := ⟨7/5, 1, 1, 1, 1⟩ },
    revenueHistory := flatRows }

/-- The out-of-range sub-score is rejected with a field-qualified
error, not clamped. -/
lemma validate_badScore :
    validate badScoreInput = .error (.validationError "scorecard.risk") := by
  norm_num [validate, firstViolation, badScoreInput, flatRows]

/-! ## Claims -/

/-- C1: for every pair of decimals recentAvg and priorAvg with priorAvg
nonzero, `computeRAF(recentAvg, priorAvg, sensitivity)` with the default
sensitivity 0.20 returns `clamp(1 + ((recentAvg - priorAvg) / priorAvg)
* 0.20, 0.90, 1.10)`, the clamp bounds being inclusive and no rounding
applied before clamping. -/
theorem claim_C1_computeRAF_default_clamp (recentAvg priorAvg : ℚ)
    (h : priorAvg ≠ 0) :
    computeRAF recentAvg priorAvg sensitivityFactor =
      .ok (clamp (1 + (recentAvg - priorAvg) / priorAvg * (0.2 : ℚ))
        (0.9 : ℚ) (1.1 : ℚ)) := by
  unfold computeRAF
  rw [if_neg h]
  norm_num [sensitivityFactor, rafLowerBound, rafUpperBound]

/-- Witness for C1: at recentAvg 110, priorAvg 100 the hypothesis holds
and the clamp evaluates to 1.02. -/
theorem claim_C1_witness :
    computeRAF 110 100 sensitivityFactor =
      .ok (clamp (1 + ((110 : ℚ) - 100) / 100 * 0.2) 0.9 1.1) ∧
    clamp (1 + ((110 : ℚ) - 100) / 100 * 0.2) 0.9 1.1 = 51/50 :=
  ⟨claim_C1_computeRAF_default_clamp 110 100 (by norm_num),
   by norm_num [clamp]⟩

/-- C2: for every investmentScore in [0,1] and every scorecard whose
five sub-scores are each in [0,1], `weightedPerformance` equals
`0.6 * investmentScore + 0.4 * ((risk + compliance + teamwork + esg +
client) / 5)` — the qualitative part is the unweighted arithmetic mean
of exactly those five sub-scores. -/
theorem claim_C2_weightedPerformance_formula (inv : ℚ)
    (sc : QualitativeScorecard)
    (_hinv : 0 ≤ inv ∧ inv ≤ 1)
    (_hrisk : 0 ≤ sc.risk ∧ sc.risk ≤ 1)
    (_hcompliance : 0 ≤ sc.compliance ∧ sc.compliance ≤ 1)
    (_hteamwork : 0 ≤ sc.teamwork ∧ sc.teamwork ≤ 1)
    (_hesg : 0 ≤ sc.esg ∧ sc.esg ≤ 1)
    (_hclient : 0 ≤ sc.client ∧ sc.client ≤ 1) :
    weightedPerformance inv sc =
      (0.6 : ℚ) * inv + (0.4 : ℚ) *
        ((sc.risk + sc.compliance + sc.teamwork + sc.esg + sc.client) / 5) := by
  unfold weightedPerformance investmentWeight qualitativeWeight
  norm_num

/-- Witness for C2: at investmentScore 0.5 and scorecard
(1, 0, 0.5, 0.25, 0.75) the hypotheses hold and the weighted
performance evaluates to 0.5. -/
theorem claim_C2_witness :
    weightedPerformance (1/2) ⟨1, 0, 1/2, 1/4, 3/4⟩ =
      (0.6 : ℚ) * (1/2) + (0.4 : ℚ) * (((1 : ℚ) + 0 + 1/2 + 1/4 + 3/4) / 5) ∧
    weightedPerformance (1/2) ⟨1, 0, 1/2, 1/4, 3/4⟩ = 1/2 :=
  ⟨claim_C2_weightedPerformance_formula (1/2) ⟨1, 0, 1/2, 1/4, 3/4⟩
      (by norm_num) (by norm_num) (by norm_num) (by norm_num) (by norm_num)
      (by norm_num),
   by norm_num [weightedPerformance, investmentWeight, qualitativeWeight]⟩

/-- C3: for every valid input on which `calculate` succeeds, the result
has initialBonus = baseSalary × targetBonusPct × weightedPerformance and
finalBonus = initialBonus × raf; and on Scenario A (baseSalary 100000,
targetBonusPct 0.20, investmentScore 1.0, scorecard all 1.0, recentAvg
110, priorAvg 100) it returns weighted 1.0, raf 1.02, initialBonus
20000, finalBonus 20400 and an empty breach list. -/
theorem claim_C3_bonus_formulas_and_scenarioA :
    (∀ (input : CompensationInput) (r : CompensationResult),
        calculate input = .ok r →
          r.initialBonus =
              input.baseSalary * input.targetBonusPct * r.weightedPerformance ∧
            r.finalBonus = r.initialBonus * r.raf) ∧
      calculate scenarioAInput = .ok scenarioAResult ∧
      scenarioAResult.weightedPerformance = 1 ∧
      scenarioAResult.raf = (1.02 : ℚ) ∧
      scenarioAResult.initialBonus = 20000 ∧
      scenarioAResult.finalBonus = 20400 ∧
      scenarioAResult.breaches = [] := by
  refine ⟨?_, calculate_scenarioA, ?_, ?_, ?_, ?_, ?_⟩
  · intro input r h
    obtain ⟨ra, pa, raf, hv, hrec, hpri, hraf, hr⟩ := calculate_ok_elim h
    subst hr
    exact ⟨rfl, rfl⟩
  all_goals norm_num [scenarioAResult]

/-- C4: every successful `calculate` result has its raf within the
inclusive bounds 0.90 and 1.10. -/
theorem claim_C4_raf_bounds (input : CompensationInput)
    (r : CompensationResult) (h : calculate input = .ok r) :
    (0.9 : ℚ) ≤ r.raf ∧ r.raf ≤ (1.1 : ℚ) := by
  obtain ⟨ra, pa, raf, hv, hrec, hpri, hraf, hr⟩ := calculate_ok_elim h
  subst hr
  have hb := computeRAF_bounds hraf
  rw [show rafLowerBound = (0.9 : ℚ) from by norm_num [rafLowerBound],
      show rafUpperBound = (1.1 : ℚ) from by norm_num [rafUpperBound]] at hb
  exact ⟨hb.1, hb.2⟩

/-- Witness for C4: discharged on Scenario A, whose raf is 1.02. -/
theorem claim_C4_witness :
    (0.9 : ℚ) ≤ scenarioAResult.raf ∧ scenarioAResult.raf ≤ (1.1 : ℚ) :=
  claim_C4_raf_bounds scenarioAInput scenarioAResult calculate_scenarioA

/-- C5: the breach code "EXCEEDS_MAX_BONUS" is appended if and only if
finalBonus > 3 × baseSalary, with strict inequality, and the numeric
fields of the result are the unmodified formula values whether or not
the breach fires. -/
theorem claim_C5_breach_iff_strict (input : CompensationInput)
    (r : CompensationResult) (h : calculate input = .ok r) :
    (r.breaches = ["EXCEEDS_MAX_BONUS"] ↔
        3 * input.baseSalary < r.finalBonus) ∧
    (r.breaches = [] ↔ ¬ 3 * input.baseSalary < r.finalBonus) ∧
    r.initialBonus =
        input.baseSalary * input.targetBonusPct * r.weightedPerformance ∧
    r.finalBonus = r.initialBonus * r.raf := by
  obtain ⟨ra, pa, raf, hv, hrec, hpri, hraf, hr⟩ := calculate_ok_elim h
  subst hr
  refine ⟨?_, ?_, rfl, rfl⟩ <;>
  · simp only [maxBonusMultiple]
    split_ifs with hb <;> simp [hb]

/-- Witness for C5: at the boundary input finalBonus equals 3 ×
baseSalary exactly and no breach fires; at the breach input finalBonus
exceeds the ceiling and the breach is recorded, the numeric fields
unchanged. -/
theorem claim_C5_witness :
    (boundaryResult.breaches = [] ↔
        ¬ 3 * boundaryInput.baseSalary < boundaryResult.finalBonus) ∧
    boundaryResult.finalBonus = 3 * boundaryInput.baseSalary ∧
    boundaryResult.breaches = [] ∧
    (breachResult.breaches = ["EXCEEDS_MAX_BONUS"] ↔
        3 * breachInput.baseSalary < breachResult.finalBonus) ∧
    3 * breachInput.baseSalary < breachResult.finalBonus ∧
    breachResult.breaches = ["EXCEEDS_MAX_BONUS"] :=
  ⟨(claim_C5_breach_iff_strict boundaryInput boundaryResult
      calculate_boundary).2.1,
   by norm_num [boundaryResult, boundaryInput],
   rfl,
   (claim_C5_breach_iff_strict breachInput breachResult
      calculate_breach).1,
   by norm_num [breachResult, breachInput],
   rfl⟩

/-- C6: a prior-window average of exactly zero makes `computeRAF` (and
hence `calculate`) raise `UndefinedRevenueDeltaError` and produce no
result; no default delta of 0 or RAF of 1.0 is substituted.  The last
conjunct is Scenario C of the spec evaluated concretely. -/
theorem claim_C6_zero_prior_raises :
    (∀ recentAvg sensitivity : ℚ,
        computeRAF recentAvg 0 sensitivity =
          .error .undefinedRevenueDeltaError) ∧
    (∀ (input : CompensationInput) (recentAvg : ℚ),
        validate input = .ok input →
        rollingAverage input.revenueHistory recentWindow = .ok recentAvg →
        rollingAverage input.revenueHistory priorWindow = .ok 0 →
        calculate input = .error .undefinedRevenueDeltaError) ∧
    calculate zeroPriorInput = .error .undefinedRevenueDeltaError := by
  refine ⟨?_, ?_, calculate_zeroPrior⟩
  · intro recentAvg sensitivity
    simp [computeRAF]
  · intro input recentAvg hv hrec hpri
    simp [calculate, hv, hrec, hpri, computeRAF]

/-- C7: the rolling-average computation fails with
`InsufficientHistoryError` if and only if a required year of the recent
window {0, −1, −2} or of the prior window {−1, −2, −3} has no revenue
entry — a missing year is never treated as a zero total — and when all
required years are present each window evaluates to the arithmetic mean
of its three per-year totals. -/
theorem claim_C7_insufficient_history (rows : List RevenueRow) :
    (rollingAverage rows recentWindow = .error .insufficientHistoryError ↔
        ∃ y ∈ recentWindow, yearTotal rows y = none) ∧
    (rollingAverage rows priorWindow = .error .insufficientHistoryError ↔
        ∃ y ∈ priorWindow, yearTotal rows y = none) ∧
    (∀ t0 t1 t2 t3 : ℚ,
        yearTotal rows 0 = some t0 → yearTotal rows (-1) = some t1 →
        yearTotal rows (-2) = some t2 → yearTotal rows (-3) = some t3 →
        rollingAverage rows recentWindow = .ok ((t0 + t1 + t2) / 3) ∧
          rollingAverage rows priorWindow = .ok ((t1 + t2 + t3) / 3)) := by
  refine ⟨rollingAverage_error_iff rows recentWindow,
          rollingAverage_error_iff rows priorWindow, ?_⟩
  intro t0 t1 t2 t3 h0 h1 h2 h3
  constructor <;>
    norm_num [rollingAverage, windowTotals, recentWindow, priorWindow,
      h0, h1, h2, h3] <;> ring

/-- C8: `validate` accepts an input if and only if baseSalary > 0,
targetBonusPct > 0, investmentScore lies in [0,1], every scorecard
sub-score lies in [0,1], and every revenue figure is nonnegative; it
returns accepted inputs unchanged (never clamps or coerces) and rejects
violations with a field-qualified `ValidationError` — concretely, a
risk sub-score of 1.4 is rejected as "scorecard.risk", not reduced to
1.0. -/
theorem claim_C8_validate_accepts_iff (i : CompensationInput) :
    (validate i = .ok i ↔
        (0 < i.baseSalary ∧ 0 < i.targetBonusPct ∧
          (0 ≤ i.performance.investmentScore ∧
            i.performance.investmentScore ≤ 1) ∧
          (0 ≤ i.performance.scorecard.risk ∧
            i.performance.scorecard.risk ≤ 1) ∧
          (0 ≤ i.performance.scorecard.compliance ∧
            i.performance.scorecard.compliance ≤ 1) ∧
          (0 ≤ i.performance.scorecard.teamwork ∧
            i.performance.scorecard.teamwork ≤ 1) ∧
          (0 ≤ i.performance.scorecard.esg ∧
            i.performance.scorecard.esg ≤ 1) ∧
          (0 ≤ i.performance.scorecard.client ∧
            i.performance.scorecard.client ≤ 1) ∧
          ∀ r ∈ i.revenueHistory,
            0 ≤ r.managementFees ∧ 0 ≤ r.performanceFees)) ∧
    (∀ v, validate i = .ok v → v = i) ∧
    (¬ validInput i →
        ∃ field, validate i = .error (.validationError field)) ∧
    validate badScoreInput = .error (.validationError "scorecard.risk") := by
  refine ⟨validate_ok_iff i, fun v hv => validate_ok_eq hv, ?_,
    validate_badScore⟩
  intro hbad
  rw [← firstViolation_none_iff] at hbad
  cases hf : firstViolation i with
  | none => exact absurd hf hbad
  | some field =>
    exact ⟨field, by simp [validate, hf]⟩

/-- Characterization of the Zod check `z.number().int().positive()`. -/
lemma numberIntPositive_eq_true (x : JSNum) :
    numberIntPositive x = true ↔
      ∃ q : ℚ, x = .num q ∧ q.den = 1 ∧ 0 < q := by
  cases x <;> simp [numberIntPositive]

/-- Characterization of the Zod check `z.number().positive()`. -/
lemma numberPositive_eq_true (x : JSNum) :
    numberPositive x = true ↔ ∃ q : ℚ, x = .num q ∧ 0 < q := by
  cases x <;> simp [numberPositive]

/-- Characterization of the Zod check `z.number().min(0).max(100)`. -/
lemma scoreInRange_eq_true (x : JSNum) :
    scoreInRange x = true ↔ ∃ q : ℚ, x = .num q ∧ 0 ≤ q ∧ q ≤ 100 := by
  cases x <;> simp [scoreInRange]

/-- A request far outside the five-axis [0,1] scorecard shape: seven
arbitrary metric names, scores on the [0,100] scale, one of them not an
integer. -/
def openShapeRequest : CompRequest :=
  { employee_id := .num 7,
    revenue_actual := .num 1000000,
    qualitative_scores :=
      [("alpha", .num 50), ("beta", .num 0), ("gamma", .num 100),
       ("custom metric", .num 73), ("epsilon", .num 12),
       ("zeta", .num (199/2)), ("eta", .num 1)] }

/-- C9: any qualitative score whose numeric conversion is NaN is
silently replaced by 0 in the request payload built by `handleSubmit`,
so the payload never contains a NaN score, and an unparseable score
entry is coerced to 0 — which the schema then accepts — rather than
rejected. -/
theorem claim_C9_nan_scores_coerced (scores : List ScoreEntry) :
    (∀ p ∈ buildQualitativeScores scores, p.2.isNaN = false) ∧
    (∀ e ∈ scores, e.score.isNaN = true →
        (e.metric, JSNum.num 0) ∈ buildQualitativeScores scores) ∧
    buildQualitativeScores scores =
      scores.map (fun e => (e.metric, toPayloadScore e.score)) ∧
    scoreInRange (toPayloadScore .nan) = true := by
  refine ⟨?_, ?_, rfl, ?_⟩
  · intro p hp
    obtain ⟨e, he, rfl⟩ := List.mem_map.mp hp
    cases h : e.score <;> simp [toPayloadScore, JSNum.isNaN, h]
  · intro e he hnan
    refine List.mem_map.mpr ⟨e, he, ?_⟩
    cases h : e.score with
    | nan => simp [toPayloadScore, JSNum.isNaN]
    | num q => rw [h] at hnan; simp [JSNum.isNaN] at hnan
  · simp [toPayloadScore, scoreInRange, JSNum.isNaN]

/-- C10: the request schema parses successfully if and only if
employee_id is a positive integer, revenue_actual is a positive number,
and every score of the open-ended qualitative_scores mapping lies in
[0, 100]; the set and number of metric names is unconstrained, so the
concrete seven-metric request on the [0,100] scale — outside the fixed
five-axis [0,1] scorecard shape — is accepted. -/
theorem claim_C10_schema_accepts_iff (req : CompRequest) :
    (schemaParse req = true ↔
        ((∃ q : ℚ, req.employee_id = .num q ∧ q.den = 1 ∧ 0 < q) ∧
          (∃ q : ℚ, req.revenue_actual = .num q ∧ 0 < q) ∧
          ∀ p ∈ req.qualitative_scores,
            ∃ q : ℚ, p.2 = .num q ∧ 0 ≤ q ∧ q ≤ 100)) ∧
    schemaParse openShapeRequest = true := by
  constructor
  · simp only [schemaParse, Bool.and_eq_true, List.all_eq_true,
      numberIntPositive_eq_true, numberPositive_eq_true,
      scoreInRange_eq_true]
    tauto
  · simp [schemaParse, openShapeRequest, numberIntPositive,
      numberPositive, scoreInRange, List.all]
    norm_num

end Comp4
